import Mathlib

/-!
Verification of the nutri_care_ai refinement workflow.

This file gives a shallow embedding of the RAG refinement state machine of
the repository (src/src/workflow) together with the caller-side safety gate
(src/src/agentic/agent/nutri_agent.py), and proves the testable properties
stated for it.

Conventions of the embedding:
* Python floats used for scores only enter order comparisons and record
  updates, so they are embedded as rationals.
* The external oracles (text completion replies, similarity search) are
  universally quantified function parameters, bundled in `Oracles`.
* The shared mutable state dict `AgentState` becomes an immutable record;
  each graph node is a function `AgentState → AgentState`, mirroring the
  in-place updates of the source line by line.
-/

namespace NutriCare

/-- One entry of `state.context` as built by `ContextRetriever.retrieve_context`:
a dict with `content` and `metadata` keys. Metadata is an opaque mapping,
embedded as an association list. -/
structure ContextDoc where
  content : String
  metadata : List (String × String)
deriving DecidableEq, Repr

/-- A document as returned by the similarity-search retriever
(`self.retriever.invoke(query)` in context_retriever.py): it carries
`page_content` and `metadata`. -/
structure RetrievedDoc where
  page_content : String
  metadata : List (String × String)
deriving DecidableEq, Repr

/-- Modelled from the spec: the file `src/workflow/agent_state.py` declaring
the `AgentState` TypedDict is not present in the repository snapshot; the
fields and their initial values are taken from the spec data model (section 3)
and from the initializer dict in
`src/src/agentic/tools/agentic_rag_tool.py` (`process_query`), which lists
every key of the state. -/
structure AgentState where
  query : String
  expanded_query : String
  context : List ContextDoc
  response : String
  precision_score : ℚ
  groundedness_score : ℚ
  groundedness_loop_count : ℕ
  precision_loop_count : ℕ
  feedback : String
  query_feedback : String
  groundedness_check : Bool
  loop_max_iter : ℕ
deriving DecidableEq, Repr

/-- The initial state built by `AgenticRAG.process_query`
(src/src/agentic/tools/agentic_rag_tool.py, lines 74-87), with the
`loop_max_iter` entry kept as a parameter `m` (the tool passes 3). -/
def initialState (query : String) (m : ℕ) : AgentState :=
  { query := query
    expanded_query := ""
    context := []
    response := ""
    precision_score := 0
    groundedness_score := 0
    groundedness_loop_count := 0
    precision_loop_count := 0
    feedback := ""
    query_feedback := ""
    groundedness_check := false
    loop_max_iter := m }

/-- The external oracles consumed by the workflow nodes: every LLM chain
invocation and the vector-store similarity search, as pure functions of the
exact inputs the source passes to them. The two score oracles are indexed by
the current loop counter, so an arbitrary sequence of evaluator scores can be
expressed. -/
structure Oracles where
  expandReply : String → String
  searchDocs : String → List RetrievedDoc
  generateReply : String → String → String → String
  groundednessScoreAt : ℕ → ℚ
  precisionScoreAt : ℕ → ℚ
  responseSuggestions : String → String → String
  querySuggestions : String → String → String

/-- `QueryExpander.expand_query` (src/src/workflow/query_expander.py, lines
82-83): `state['expanded_query'] = chain.invoke(query=state['query'])`. -/
def QueryExpander.expand_query (o : Oracles) (s : AgentState) : AgentState :=
  { s with expanded_query := o.expandReply s.query }

/-- `ContextRetriever.retrieve_context` (src/src/workflow/context_retriever.py,
lines 82-91): invokes the retriever (configured with k = 3) on
`state['expanded_query']` and overwrites `state['context']` with the list of
content/metadata dicts, in the order returned. -/
def ContextRetriever.retrieve_context (o : Oracles) (s : AgentState) : AgentState :=
  { s with context := (o.searchDocs s.expanded_query).map (fun d => ⟨d.page_content, d.metadata⟩) }

/-- `ResponseGenerator.generate_response`
(src/src/workflow/response_generator.py, lines 91-98): calls the chain with
the query, the context contents joined with newlines, and the feedback, and
overwrites `state['response']`. -/
def ResponseGenerator.generate_response (o : Oracles) (s : AgentState) : AgentState :=
  { s with response := o.generateReply s.query (String.intercalate "\n" (s.context.map (fun d => d.content))) s.feedback }

/-- The successful score update of `PrecisionEvaluator.evaluate`
(src/src/workflow/evaluation/impl/precision_evaluator.py, lines 106-112):
set `precision_score` and increment `precision_loop_count` by one. -/
def PrecisionEvaluator.applyScore (v : ℚ) (s : AgentState) : AgentState :=
  { s with precision_score := v, precision_loop_count := s.precision_loop_count + 1 }

/-- Modelled from the spec: the file
`src/workflow/evaluation/impl/groundedness_evaluator.py` imported by the
workflow builder is not present in the repository snapshot. Spec section 4.4:
the groundedness evaluator sets `state.groundedness_score` and increments
`state.groundedness_loop_count` by exactly 1, with the same oracle-scoring
mechanism as the precision evaluator. -/
def GroundednessEvaluator.applyScore (v : ℚ) (s : AgentState) : AgentState :=
  { s with groundedness_score := v, groundedness_loop_count := s.groundedness_loop_count + 1 }

/-- `ResponseFeedbackProvider.provide_feedback`
(src/src/workflow/feedback/impl/response_feedback_provider.py, lines 91-98):
asks the chain for suggestions on (query, response) and sets
`state['feedback']` to the f-string
`"Previous Response: ...\nSuggestions: ..."`. -/
def ResponseFeedbackProvider.provide_feedback (o : Oracles) (s : AgentState) : AgentState :=
  { s with feedback :=
      "Previous Response: " ++ s.response ++ "\nSuggestions: "
        ++ o.responseSuggestions s.query s.response }

/-- `QueryFeedbackProvider.provide_feedback`
(src/src/workflow/feedback/impl/query_feedback_provider.py, lines 86-94):
asks the chain for suggestions on (query, expanded_query) and sets
`state['query_feedback']` to the f-string
`"Previous Expanded Query: ...\nSuggestions: ..."`. -/
def QueryFeedbackProvider.provide_feedback (o : Oracles) (s : AgentState) : AgentState :=
  { s with query_feedback :=
      "Previous Expanded Query: " ++ s.expanded_query ++ "\nSuggestions: "
        ++ o.querySuggestions s.query s.expanded_query }

/-- `MaxIterationsHandler` (src/src/workflow/handler/impl/max_iterations_handler.py):
carries the configurable fallback message. -/
structure MaxIterationsHandler where
  fallback_message : String

/-- The default constructor argument of `MaxIterationsHandler.__init__`. -/
def defaultMaxIterationsHandler : MaxIterationsHandler :=
  { fallback_message := "We need more context to provide an accurate answer." }

/-- `MaxIterationsHandler.handle_max_iterations` (lines 37-60): overwrite
`state['response']` with the fallback message, touch nothing else. -/
def MaxIterationsHandler.handle_max_iterations (h : MaxIterationsHandler)
    (s : AgentState) : AgentState :=
  { s with response := h.fallback_message }

/-- `GroundednessNextStep` (src/src/workflow/handler/impl/groundedness_handler.py):
routing handler carrying the groundedness threshold. -/
structure GroundednessNextStep where
  groundedness_threshold : ℚ

/-- The default constructor argument of `GroundednessNextStep.__init__`
(threshold 8.0). -/
def defaultGroundednessNextStep : GroundednessNextStep :=
  { groundedness_threshold := 8 }

/-- `GroundednessNextStep.get_next_step` (groundedness_handler.py, lines
64-70), translated branch for branch. -/
def GroundednessNextStep.get_next_step (h : GroundednessNextStep)
    (s : AgentState) : String :=
  if s.groundedness_score ≥ h.groundedness_threshold then
    "check_precision"
  else
    if s.groundedness_loop_count > s.loop_max_iter then
      "max_iterations_reached"
    else
      "refine_response"

/-- `PrecisionHandler` (src/src/workflow/handler/impl/precision_handler.py):
routing handler carrying its own threshold and its own iteration ceiling. -/
structure PrecisionHandler where
  precision_threshold : ℚ
  max_loops : ℕ

/-- The default constructor arguments of `PrecisionHandler.__init__`
(threshold 8.0, max_loops 3). -/
def defaultPrecisionHandler : PrecisionHandler :=
  { precision_threshold := 8, max_loops := 3 }

/-- `PrecisionHandler.get_next_step` (precision_handler.py, lines 70-76),
translated branch for branch; note it reads the handler's own `max_loops`,
not `state['loop_max_iter']`. -/
def PrecisionHandler.get_next_step (h : PrecisionHandler)
    (s : AgentState) : String :=
  if s.precision_score ≥ h.precision_threshold then
    "pass"
  else
    if s.precision_loop_count > h.max_loops then
      "max_iterations_reached"
    else
      "refine_query"

/-- The nodes of the LangGraph state graph built by
`WorkflowBuilder.create_workflow` (src/src/workflow/workflow.py, lines
106-147), plus the END sentinel. -/
inductive Node where
  | expandQueryN
  | retrieveContextN
  | generateResponseN
  | scoreGroundednessN
  | refineResponseN
  | checkPrecisionN
  | refineQueryN
  | maxIterationsN
  | endN
deriving DecidableEq, Repr

/-- A configuration of the running graph: the node about to execute and the
current shared state. -/
structure Cfg where
  node : Node
  state : AgentState
deriving DecidableEq, Repr

/-- The conditional-edge dictionary attached to `score_groundedness`
(workflow.py, lines 123-131), mapping the router's string to the next node. -/
def routeGroundedness (r : String) : Node :=
  if r = "check_precision" then .checkPrecisionN
  else if r = "refine_response" then .refineResponseN
  else .maxIterationsN

/-- The conditional-edge dictionary attached to `check_precision`
(workflow.py, lines 136-144): `"pass"` maps to END. -/
def routePrecision (r : String) : Node :=
  if r = "pass" then .endN
  else if r = "refine_query" then .refineQueryN
  else .maxIterationsN

/-- One step of the orchestrator: execute the current node on the state and
follow the edge out of it, exactly as wired in
`WorkflowBuilder.create_workflow`. Evaluator scores are drawn from the score
oracles at the current loop counter. END is absorbing. -/
def step (gh : GroundednessNextStep) (ph : PrecisionHandler)
    (mh : MaxIterationsHandler) (o : Oracles) : Cfg → Cfg
  | ⟨.expandQueryN, s⟩ => ⟨.retrieveContextN, QueryExpander.expand_query o s⟩
  | ⟨.retrieveContextN, s⟩ => ⟨.generateResponseN, ContextRetriever.retrieve_context o s⟩
  | ⟨.generateResponseN, s⟩ => ⟨.scoreGroundednessN, ResponseGenerator.generate_response o s⟩
  | ⟨.scoreGroundednessN, s⟩ =>
      let s' := GroundednessEvaluator.applyScore (o.groundednessScoreAt s.groundedness_loop_count) s
      ⟨routeGroundedness (gh.get_next_step s'), s'⟩
  | ⟨.refineResponseN, s⟩ => ⟨.generateResponseN, ResponseFeedbackProvider.provide_feedback o s⟩
  | ⟨.checkPrecisionN, s⟩ =>
      let s' := PrecisionEvaluator.applyScore (o.precisionScoreAt s.precision_loop_count) s
      ⟨routePrecision (ph.get_next_step s'), s'⟩
  | ⟨.refineQueryN, s⟩ => ⟨.expandQueryN, QueryFeedbackProvider.provide_feedback o s⟩
  | ⟨.maxIterationsN, s⟩ => ⟨.endN, mh.handle_max_iterations s⟩
  | ⟨.endN, s⟩ => ⟨.endN, s⟩

/-- A fixed oracle assignment used to instantiate theorems with hypotheses
on concrete inputs: the search oracle returns one fixed document, every text
oracle returns a fixed string, every score oracle returns 9. -/
def witnessOracles : Oracles :=
  { expandReply := fun _ => "expanded"
    searchDocs := fun _ => [⟨"doc-text", [("source", "handbook")]⟩]
    generateReply := fun _ _ _ => "generated"
    groundednessScoreAt := fun _ => 9
    precisionScoreAt := fun _ => 9
    responseSuggestions := fun _ _ => "tighten citations"
    querySuggestions := fun _ _ => "add clinical terms" }

/-- Two states that agree on every field except `query_feedback`. -/
def eqExceptQueryFeedback (s₁ s₂ : AgentState) : Prop :=
  s₁.query = s₂.query ∧ s₁.expanded_query = s₂.expanded_query ∧
  s₁.context = s₂.context ∧ s₁.response = s₂.response ∧
  s₁.precision_score = s₂.precision_score ∧
  s₁.groundedness_score = s₂.groundedness_score ∧
  s₁.groundedness_loop_count = s₂.groundedness_loop_count ∧
  s₁.precision_loop_count = s₂.precision_loop_count ∧
  s₁.feedback = s₂.feedback ∧ s₁.groundedness_check = s₂.groundedness_check ∧
  s₁.loop_max_iter = s₂.loop_max_iter

/-- Numeric value of a digit list, most significant first. -/
def digitsVal (l : List Char) : ℕ :=
  l.foldl (fun a c => 10 * a + (c.toNat - 48)) 0

/-- True when every character is a decimal digit. -/
def allDigits (l : List Char) : Bool :=
  l.all (fun c => c.isDigit)

/-- Whitespace recognised when trimming an oracle reply. -/
def isSpaceChar (c : Char) : Bool :=
  c = ' ' || c = '\t' || c = '\n' || c = '\r'

/-- Drop leading and trailing whitespace. -/
def trimChars (l : List Char) : List Char :=
  ((l.dropWhile isSpaceChar).reverse.dropWhile isSpaceChar).reverse

/-- Split at the first dot, if any. -/
def splitAtDot : List Char → Option (List Char × List Char)
  | [] => none
  | c :: cs =>
      if c = '.' then some ([], cs)
      else (splitAtDot cs).map (fun p => (c :: p.1, p.2))

/-- Value of an unsigned decimal literal: digits, optionally with one dot,
with at least one digit overall. -/
def parseDecimalChars (l : List Char) : Option ℚ :=
  match splitAtDot l with
  | some (ip, fp) =>
      if fp.contains '.' then none
      else if decide (0 < ip.length + fp.length) && allDigits ip && allDigits fp then
        some ((digitsVal ip : ℚ) + (digitsVal fp : ℚ) / (10 : ℚ) ^ fp.length)
      else none
  | none =>
      if decide (0 < l.length) && allDigits l then some (digitsVal l : ℚ) else none

/-- Model of Python's builtin `float` applied to the evaluator chain's reply,
on the decimal-literal fragment: surrounding whitespace is ignored, an
optional sign precedes digits with at most one dot, and anything else raises
`ValueError`. (Exponent, infinity and nan forms, which never denote a score
in range, are modelled as failures.) No range check is performed, exactly as
in `float(self.chain.invoke(...))`. -/
def parseFloat (reply : String) : Option ℚ :=
  match trimChars reply.data with
  | '-' :: rest => (parseDecimalChars rest).map (fun v => -v)
  | '+' :: rest => parseDecimalChars rest
  | l => parseDecimalChars l

/-- Parsing as the claim words it: a numeral in the range [0, 10]. -/
def parseFloatInRange (reply : String) : Option ℚ :=
  (parseFloat reply).filter (fun v => 0 ≤ v ∧ v ≤ 10)

/-- The one error kind the evaluator can raise: `float()` failing on the
oracle reply (Python `ValueError`). -/
inductive EvalErr where
  | parseError
deriving DecidableEq, Repr

/-- `PrecisionEvaluator.evaluate` (precision_evaluator.py, lines 106-114) at
the level of the raw chain reply: first `float(...)` parses the reply — a
failure there raises before any state write, so the unchanged state is
returned alongside the error — and only on success are `precision_score`
and `precision_loop_count` updated. -/
def PrecisionEvaluator.evaluate (reply : String) (s : AgentState) :
    AgentState × Option EvalErr :=
  match parseFloat reply with
  | none => (s, some .parseError)
  | some v => (PrecisionEvaluator.applyScore v s, none)

/-- The verdict strings `NutritionAgent.run` forwards to the RAG workflow
(src/src/agentic/agent/nutri_agent.py, line 35): the membership test
`filtered_result in ["safe", "unsafe S6", "unsafe S7"]` deliberately lets
the two Llama Guard categories S6 and S7 through. -/
def forwardedVerdicts : List String :=
  ["safe", "unsafe S6", "unsafe S7"]

/-- What the caller does after filtering one query. -/
inductive AgentAction where
  | invokeWorkflow
  | surfaceRejection
deriving DecidableEq, Repr

/-- The branch of `NutritionAgent.run` (nutri_agent.py, lines 33-46) on the
filter result: a verdict in the forwarded list reaches
`handle_customer_query` (and hence the orchestrator); anything else only
prints the rejection message. -/
def handleFilteredResult (v : String) : AgentAction :=
  if v ∈ forwardedVerdicts then .invokeWorkflow else .surfaceRejection

/-- True when the first list is an initial segment of the second. -/
def beginsWith : List Char → List Char → Bool
  | [], _ => true
  | _ :: _, [] => false
  | c :: cs, d :: ds => c = d && beginsWith cs ds

/-- A rejected verdict of the content-safety filter: Llama Guard answers
either the single word for a safe input, or a reply starting with the
marker word for an unsafe one followed by the violated category (the code
comment on `GuardFilter.filter` documents this protocol, and line 96
flattens the newline so the category follows after a space). -/
def isRejectedVerdict (v : String) : Bool :=
  beginsWith "unsafe".data v.data

/-- A finished run stays finished: one orchestrator step at END is the
identity. -/
theorem step_endN (gh : GroundednessNextStep) (ph : PrecisionHandler)
    (mh : MaxIterationsHandler) (o : Oracles) (c : Cfg) (h : c.node = .endN) :
    step gh ph mh o c = c := by
  rcases c with ⟨n, s⟩
  cases n <;> simp_all [step]

/-- Iterating the orchestrator from a finished configuration stays at END. -/
theorem iterate_endN (gh : GroundednessNextStep) (ph : PrecisionHandler)
    (mh : MaxIterationsHandler) (o : Oracles) (d : ℕ) :
    ∀ c : Cfg, c.node = .endN → ((step gh ph mh o)^[d] c).node = .endN := by
  induction d with
  | zero => intro c h; simpa using h
  | succ d ih =>
      intro c h
      rw [Function.iterate_succ_apply]
      exact ih _ (by rw [step_endN gh ph mh o c h]; exact h)

/-- The groundedness edge dictionary on the literal router outputs. -/
theorem routeG_check : routeGroundedness "check_precision" = Node.checkPrecisionN := by
  decide

/-- The groundedness edge dictionary sends the refine label to REFINE_RESPONSE. -/
theorem routeG_refine : routeGroundedness "refine_response" = Node.refineResponseN := by
  decide

/-- The groundedness edge dictionary sends the exhausted label to MAX_ITERATIONS. -/
theorem routeG_max : routeGroundedness "max_iterations_reached" = Node.maxIterationsN := by
  decide

/-- The precision edge dictionary sends the pass label to END. -/
theorem routeP_pass : routePrecision "pass" = Node.endN := by
  decide

/-- The precision edge dictionary sends the refine label to REFINE_QUERY. -/
theorem routeP_refine : routePrecision "refine_query" = Node.refineQueryN := by
  decide

/-- The precision edge dictionary sends the exhausted label to MAX_ITERATIONS. -/
theorem routeP_max : routePrecision "max_iterations_reached" = Node.maxIterationsN := by
  decide

/-- Inner-loop bound: from GENERATE_RESPONSE, once the groundedness counter
is within `j` of exceeding `loop_max_iter`, the run reaches END or
CHECK_PRECISION within `3 * j + 3` steps, without touching the precision
counter or `loop_max_iter`. The counter argument is that every circuit of
GENERATE_RESPONSE → SCORE_GROUNDEDNESS → REFINE_RESPONSE increments the
never-reset groundedness counter, and the groundedness router stops issuing
`refine_response` once the counter exceeds the ceiling. -/
theorem inner_reach (gh : GroundednessNextStep) (ph : PrecisionHandler)
    (mh : MaxIterationsHandler) (o : Oracles) :
    ∀ (j : ℕ) (s : AgentState),
      s.loop_max_iter + 1 ≤ s.groundedness_loop_count + j →
      ∃ n, n ≤ 3 * j + 3 ∧ ∃ t : AgentState,
        t.precision_loop_count = s.precision_loop_count ∧
        t.loop_max_iter = s.loop_max_iter ∧
        ((step gh ph mh o)^[n] ⟨.generateResponseN, s⟩ = ⟨.endN, t⟩ ∨
          (step gh ph mh o)^[n] ⟨.generateResponseN, s⟩ = ⟨.checkPrecisionN, t⟩) := by
  intro j
  induction j with
  | zero =>
      intro s hj
      set s₂ := GroundednessEvaluator.applyScore
        (o.groundednessScoreAt (ResponseGenerator.generate_response o s).groundedness_loop_count)
        (ResponseGenerator.generate_response o s) with hs₂
      have h2 : (step gh ph mh o)^[2] ⟨.generateResponseN, s⟩
          = ⟨routeGroundedness (gh.get_next_step s₂), s₂⟩ := rfl
      have e1 : s₂.groundedness_loop_count = s.groundedness_loop_count + 1 := rfl
      have e2 : s₂.loop_max_iter = s.loop_max_iter := rfl
      have e3 : s₂.precision_loop_count = s.precision_loop_count := rfl
      by_cases hA : s₂.groundedness_score ≥ gh.groundedness_threshold
      · have hg : gh.get_next_step s₂ = "check_precision" := by
          unfold GroundednessNextStep.get_next_step
          rw [if_pos hA]
        refine ⟨2, by omega, s₂, e3, e2, Or.inr ?_⟩
        rw [h2, hg, routeG_check]
      · by_cases hB : s₂.groundedness_loop_count > s₂.loop_max_iter
        · have hg : gh.get_next_step s₂ = "max_iterations_reached" := by
            unfold GroundednessNextStep.get_next_step
            rw [if_neg hA, if_pos hB]
          refine ⟨1 + 2, by omega, mh.handle_max_iterations s₂, e3, e2, Or.inl ?_⟩
          simp only [Function.iterate_add_apply, Function.iterate_one]
          rw [h2, hg, routeG_max]
          rfl
        · exact absurd (by omega : s₂.groundedness_loop_count > s₂.loop_max_iter) hB
  | succ j ih =>
      intro s hj
      set s₂ := GroundednessEvaluator.applyScore
        (o.groundednessScoreAt (ResponseGenerator.generate_response o s).groundedness_loop_count)
        (ResponseGenerator.generate_response o s) with hs₂
      have h2 : (step gh ph mh o)^[2] ⟨.generateResponseN, s⟩
          = ⟨routeGroundedness (gh.get_next_step s₂), s₂⟩ := rfl
      have e1 : s₂.groundedness_loop_count = s.groundedness_loop_count + 1 := rfl
      have e2 : s₂.loop_max_iter = s.loop_max_iter := rfl
      have e3 : s₂.precision_loop_count = s.precision_loop_count := rfl
      by_cases hA : s₂.groundedness_score ≥ gh.groundedness_threshold
      · have hg : gh.get_next_step s₂ = "check_precision" := by
          unfold GroundednessNextStep.get_next_step
          rw [if_pos hA]
        refine ⟨2, by omega, s₂, e3, e2, Or.inr ?_⟩
        rw [h2, hg, routeG_check]
      · by_cases hB : s₂.groundedness_loop_count > s₂.loop_max_iter
        · have hg : gh.get_next_step s₂ = "max_iterations_reached" := by
            unfold GroundednessNextStep.get_next_step
            rw [if_neg hA, if_pos hB]
          refine ⟨1 + 2, by omega, mh.handle_max_iterations s₂, e3, e2, Or.inl ?_⟩
          simp only [Function.iterate_add_apply, Function.iterate_one]
          rw [h2, hg, routeG_max]
          rfl
        · have hg : gh.get_next_step s₂ = "refine_response" := by
            unfold GroundednessNextStep.get_next_step
            rw [if_neg hA, if_neg hB]
          set s₃ := ResponseFeedbackProvider.provide_feedback o s₂ with hs₃
          have h3 : (step gh ph mh o)^[1 + 2] ⟨.generateResponseN, s⟩
              = ⟨.generateResponseN, s₃⟩ := by
            simp only [Function.iterate_add_apply, Function.iterate_one]
            rw [h2, hg, routeG_refine]
            rfl
          have e4 : s₃.groundedness_loop_count = s.groundedness_loop_count + 1 := e1
          have e5 : s₃.loop_max_iter = s.loop_max_iter := e2
          have e6 : s₃.precision_loop_count = s.precision_loop_count := e3
          obtain ⟨n', hn', t, ht1, ht2, hd⟩ := ih s₃ (by omega)
          refine ⟨n' + (1 + 2), by omega, t, by omega, by omega, ?_⟩
          rw [Function.iterate_add_apply (step gh ph mh o) n' (1 + 2), h3]
          exact hd

/-- Outer-loop bound: from EXPAND_QUERY, once the precision counter is
within `k` of exceeding the precision handler's `max_loops`, the run
reaches END within `(k + 1) * (3 * loop_max_iter + 10)` steps. Every
circuit through CHECK_PRECISION increments the never-reset precision
counter, and the precision router stops issuing `refine_query` once the
counter exceeds `max_loops`. -/
theorem outer_reach (gh : GroundednessNextStep) (ph : PrecisionHandler)
    (mh : MaxIterationsHandler) (o : Oracles) :
    ∀ (k : ℕ) (s : AgentState),
      ph.max_loops + 1 ≤ s.precision_loop_count + k →
      ∃ n, n ≤ (k + 1) * (3 * s.loop_max_iter + 10) ∧
        ((step gh ph mh o)^[n] ⟨.expandQueryN, s⟩).node = .endN := by
  intro k
  induction k with
  | zero =>
      intro s hk
      have hmul : 3 * s.loop_max_iter + 10 ≤ (0 + 1) * (3 * s.loop_max_iter + 10) := by
        omega
      set s₂ := ContextRetriever.retrieve_context o (QueryExpander.expand_query o s) with hs₂
      have h2 : (step gh ph mh o)^[2] ⟨.expandQueryN, s⟩ = ⟨.generateResponseN, s₂⟩ := rfl
      have e1 : s₂.groundedness_loop_count = s.groundedness_loop_count := rfl
      have e2 : s₂.precision_loop_count = s.precision_loop_count := rfl
      have e3 : s₂.loop_max_iter = s.loop_max_iter := rfl
      obtain ⟨n₁, hn₁, t, ht1, ht2, hd⟩ :=
        inner_reach gh ph mh o (s.loop_max_iter + 1) s₂ (by omega)
      rcases hd with hend | hcp
      · refine ⟨n₁ + 2, ?_, ?_⟩
        · calc n₁ + 2 ≤ 3 * s.loop_max_iter + 10 := by omega
            _ ≤ (0 + 1) * (3 * s.loop_max_iter + 10) := hmul
        · rw [Function.iterate_add_apply (step gh ph mh o) n₁ 2, h2, hend]
      · set t' := PrecisionEvaluator.applyScore (o.precisionScoreAt t.precision_loop_count) t
          with ht'
        have f1 : step gh ph mh o ⟨.checkPrecisionN, t⟩
            = ⟨routePrecision (ph.get_next_step t'), t'⟩ := rfl
        have e4 : t'.precision_loop_count = t.precision_loop_count + 1 := rfl
        have e5 : t'.loop_max_iter = t.loop_max_iter := rfl
        by_cases hP : t'.precision_score ≥ ph.precision_threshold
        · have hg : ph.get_next_step t' = "pass" := by
            unfold PrecisionHandler.get_next_step
            rw [if_pos hP]
          refine ⟨1 + (n₁ + 2), ?_, ?_⟩
          · calc 1 + (n₁ + 2) ≤ 3 * s.loop_max_iter + 10 := by omega
              _ ≤ (0 + 1) * (3 * s.loop_max_iter + 10) := hmul
          · rw [Function.iterate_add_apply (step gh ph mh o) 1 (n₁ + 2),
              Function.iterate_add_apply (step gh ph mh o) n₁ 2, h2, hcp,
              Function.iterate_one, f1, hg, routeP_pass]
        · by_cases hQ : t'.precision_loop_count > ph.max_loops
          · have hg : ph.get_next_step t' = "max_iterations_reached" := by
              unfold PrecisionHandler.get_next_step
              rw [if_neg hP, if_pos hQ]
            refine ⟨1 + (1 + (n₁ + 2)), ?_, ?_⟩
            · calc 1 + (1 + (n₁ + 2)) ≤ 3 * s.loop_max_iter + 10 := by omega
                _ ≤ (0 + 1) * (3 * s.loop_max_iter + 10) := hmul
            · simp only [Function.iterate_add_apply, Function.iterate_one]
              rw [h2, hcp, f1, hg, routeP_max]
              rfl
          · exfalso
            omega
  | succ k ih =>
      intro s hk
      have hmul : 3 * s.loop_max_iter + 10 ≤ (k + 1) * (3 * s.loop_max_iter + 10) :=
        Nat.le_mul_of_pos_left _ (Nat.succ_pos k)
      have hstepup : (k + 1) * (3 * s.loop_max_iter + 10)
          ≤ (k + 1 + 1) * (3 * s.loop_max_iter + 10) :=
        Nat.mul_le_mul_right _ (by omega)
      set s₂ := ContextRetriever.retrieve_context o (QueryExpander.expand_query o s) with hs₂
      have h2 : (step gh ph mh o)^[2] ⟨.expandQueryN, s⟩ = ⟨.generateResponseN, s₂⟩ := rfl
      have e1 : s₂.groundedness_loop_count = s.groundedness_loop_count := rfl
      have e2 : s₂.precision_loop_count = s.precision_loop_count := rfl
      have e3 : s₂.loop_max_iter = s.loop_max_iter := rfl
      obtain ⟨n₁, hn₁, t, ht1, ht2, hd⟩ :=
        inner_reach gh ph mh o (s.loop_max_iter + 1) s₂ (by omega)
      rcases hd with hend | hcp
      · refine ⟨n₁ + 2, ?_, ?_⟩
        · calc n₁ + 2 ≤ 3 * s.loop_max_iter + 10 := by omega
            _ ≤ (k + 1) * (3 * s.loop_max_iter + 10) := hmul
            _ ≤ (k + 1 + 1) * (3 * s.loop_max_iter + 10) := hstepup
        · rw [Function.iterate_add_apply (step gh ph mh o) n₁ 2, h2, hend]
      · set t' := PrecisionEvaluator.applyScore (o.precisionScoreAt t.precision_loop_count) t
          with ht'
        have f1 : step gh ph mh o ⟨.checkPrecisionN, t⟩
            = ⟨routePrecision (ph.get_next_step t'), t'⟩ := rfl
        have e4 : t'.precision_loop_count = t.precision_loop_count + 1 := rfl
        have e5 : t'.loop_max_iter = t.loop_max_iter := rfl
        by_cases hP : t'.precision_score ≥ ph.precision_threshold
        · have hg : ph.get_next_step t' = "pass" := by
            unfold PrecisionHandler.get_next_step
            rw [if_pos hP]
          refine ⟨1 + (n₁ + 2), ?_, ?_⟩
          · calc 1 + (n₁ + 2) ≤ 3 * s.loop_max_iter + 10 := by omega
              _ ≤ (k + 1) * (3 * s.loop_max_iter + 10) := hmul
              _ ≤ (k + 1 + 1) * (3 * s.loop_max_iter + 10) := hstepup
          · rw [Function.iterate_add_apply (step gh ph mh o) 1 (n₁ + 2),
              Function.iterate_add_apply (step gh ph mh o) n₁ 2, h2, hcp,
              Function.iterate_one, f1, hg, routeP_pass]
        · by_cases hQ : t'.precision_loop_count > ph.max_loops
          · have hg : ph.get_next_step t' = "max_iterations_reached" := by
              unfold PrecisionHandler.get_next_step
              rw [if_neg hP, if_pos hQ]
            refine ⟨1 + (1 + (n₁ + 2)), ?_, ?_⟩
            · calc 1 + (1 + (n₁ + 2)) ≤ 3 * s.loop_max_iter + 10 := by omega
                _ ≤ (k + 1) * (3 * s.loop_max_iter + 10) := hmul
                _ ≤ (k + 1 + 1) * (3 * s.loop_max_iter + 10) := hstepup
            · simp only [Function.iterate_add_apply, Function.iterate_one]
              rw [h2, hcp, f1, hg, routeP_max]
              rfl
          · have hg : ph.get_next_step t' = "refine_query" := by
              unfold PrecisionHandler.get_next_step
              rw [if_neg hP, if_neg hQ]
            set u := QueryFeedbackProvider.provide_feedback o t' with hu
            have f2 : step gh ph mh o ⟨.refineQueryN, t'⟩ = ⟨.expandQueryN, u⟩ := rfl
            have e6 : u.precision_loop_count = t.precision_loop_count + 1 := e4
            have e7 : u.loop_max_iter = t.loop_max_iter := e5
            obtain ⟨n₂, hn₂, hend2⟩ := ih u (by omega)
            have hul : u.loop_max_iter = s.loop_max_iter := by omega
            rw [hul] at hn₂
            refine ⟨n₂ + (1 + (1 + (n₁ + 2))), ?_, ?_⟩
            · have hsm : (k + 1 + 1) * (3 * s.loop_max_iter + 10)
                  = (k + 1) * (3 * s.loop_max_iter + 10) + (3 * s.loop_max_iter + 10) :=
                Nat.succ_mul _ _
              have hb : 1 + (1 + (n₁ + 2)) ≤ 3 * s.loop_max_iter + 10 := by omega
              omega
            · simp only [Function.iterate_add_apply, Function.iterate_one]
              rw [h2, hcp, f1, hg, routeP_refine, f2]
              exact hend2

/-- Claim C3 — termination: for every initial state (counters zero,
`loop_max_iter` = m) and every sequence of evaluator scores and oracle
replies, the orchestrator reaches END within
`(max_loops + 2) * (3 * m + 10)` node steps — a bound linear in the
iteration ceilings — and is still at the absorbing END node at that bound,
so no infinite loop through GENERATE_RESPONSE⇄REFINE_RESPONSE or
EXPAND_QUERY⇄REFINE_QUERY is reachable. -/
theorem workflow_termination :
    ∀ (gh : GroundednessNextStep) (ph : PrecisionHandler) (mh : MaxIterationsHandler)
      (o : Oracles) (q : String) (m : ℕ),
      (∃ n, n ≤ (ph.max_loops + 2) * (3 * m + 10) ∧
        ((step gh ph mh o)^[n] ⟨.expandQueryN, initialState q m⟩).node = .endN) ∧
      ((step gh ph mh o)^[(ph.max_loops + 2) * (3 * m + 10)]
          ⟨.expandQueryN, initialState q m⟩).node = .endN := by
  intro gh ph mh o q m
  obtain ⟨n, hn, hend⟩ := outer_reach gh ph mh o (ph.max_loops + 1) (initialState q m)
    (by have h0 : (initialState q m).precision_loop_count = 0 := rfl; omega)
  have hn' : n ≤ (ph.max_loops + 2) * (3 * m + 10) := hn
  refine ⟨⟨n, hn', hend⟩, ?_⟩
  have hsplit : (ph.max_loops + 2) * (3 * m + 10)
      = ((ph.max_loops + 2) * (3 * m + 10) - n) + n := by omega
  rw [hsplit, Function.iterate_add_apply]
  exact iterate_endN gh ph mh o _ _ hend

/-- Claim C4 — counter monotonicity and exclusive ownership: the
SCORE_GROUNDEDNESS node update increments `groundedness_loop_count` by
exactly 1 and leaves `precision_loop_count` alone; the CHECK_PRECISION node
update increments `precision_loop_count` by exactly 1 and leaves
`groundedness_loop_count` alone; every other node function of the graph
leaves both counters unchanged; consequently one orchestrator step never
decreases either counter. -/
theorem counter_monotonicity :
    ∀ (o : Oracles) (mh : MaxIterationsHandler) (v : ℚ) (s : AgentState),
      ((GroundednessEvaluator.applyScore v s).groundedness_loop_count
          = s.groundedness_loop_count + 1 ∧
        (GroundednessEvaluator.applyScore v s).precision_loop_count
          = s.precision_loop_count) ∧
      ((PrecisionEvaluator.applyScore v s).precision_loop_count
          = s.precision_loop_count + 1 ∧
        (PrecisionEvaluator.applyScore v s).groundedness_loop_count
          = s.groundedness_loop_count) ∧
      ((QueryExpander.expand_query o s).groundedness_loop_count
            = s.groundedness_loop_count ∧
        (QueryExpander.expand_query o s).precision_loop_count
            = s.precision_loop_count) ∧
      ((ContextRetriever.retrieve_context o s).groundedness_loop_count
            = s.groundedness_loop_count ∧
        (ContextRetriever.retrieve_context o s).precision_loop_count
            = s.precision_loop_count) ∧
      ((ResponseGenerator.generate_response o s).groundedness_loop_count
            = s.groundedness_loop_count ∧
        (ResponseGenerator.generate_response o s).precision_loop_count
            = s.precision_loop_count) ∧
      ((ResponseFeedbackProvider.provide_feedback o s).groundedness_loop_count
            = s.groundedness_loop_count ∧
        (ResponseFeedbackProvider.provide_feedback o s).precision_loop_count
            = s.precision_loop_count) ∧
      ((QueryFeedbackProvider.provide_feedback o s).groundedness_loop_count
            = s.groundedness_loop_count ∧
        (QueryFeedbackProvider.provide_feedback o s).precision_loop_count
            = s.precision_loop_count) ∧
      ((mh.handle_max_iterations s).groundedness_loop_count
            = s.groundedness_loop_count ∧
        (mh.handle_max_iterations s).precision_loop_count
            = s.precision_loop_count) ∧
      (∀ (gh : GroundednessNextStep) (ph : PrecisionHandler) (c : Cfg),
        c.state.groundedness_loop_count ≤ (step gh ph mh o c).state.groundedness_loop_count ∧
        c.state.precision_loop_count ≤ (step gh ph mh o c).state.precision_loop_count) := by
  intro o mh v s
  refine ⟨⟨rfl, rfl⟩, ⟨rfl, rfl⟩, ⟨rfl, rfl⟩, ⟨rfl, rfl⟩, ⟨rfl, rfl⟩, ⟨rfl, rfl⟩,
    ⟨rfl, rfl⟩, ⟨rfl, rfl⟩, ?_⟩
  rintro gh ph ⟨n, t⟩
  cases n <;> simp [step, QueryExpander.expand_query, ContextRetriever.retrieve_context,
    ResponseGenerator.generate_response, GroundednessEvaluator.applyScore,
    PrecisionEvaluator.applyScore, ResponseFeedbackProvider.provide_feedback,
    QueryFeedbackProvider.provide_feedback, MaxIterationsHandler.handle_max_iterations]

/-- Claim C1 — routing law of the groundedness router, exactly as
`GroundednessNextStep.get_next_step` decides it: `check_precision` iff the
score meets the threshold (default 8.0), `max_iterations_reached` iff the
score is below threshold and the loop count strictly exceeds
`loop_max_iter`, and `refine_response` in the remaining case. -/
theorem groundedness_routing_law :
    defaultGroundednessNextStep.groundedness_threshold = 8 ∧
    ∀ (h : GroundednessNextStep) (s : AgentState),
      (h.get_next_step s = "check_precision" ↔
        s.groundedness_score ≥ h.groundedness_threshold) ∧
      (h.get_next_step s = "max_iterations_reached" ↔
        (s.groundedness_score < h.groundedness_threshold ∧
          s.groundedness_loop_count > s.loop_max_iter)) ∧
      (h.get_next_step s = "refine_response" ↔
        (s.groundedness_score < h.groundedness_threshold ∧
          s.groundedness_loop_count ≤ s.loop_max_iter)) := by
  refine ⟨rfl, fun h s => ?_⟩
  unfold GroundednessNextStep.get_next_step
  by_cases h1 : s.groundedness_score ≥ h.groundedness_threshold
  · rw [if_pos h1]
    refine ⟨iff_of_true rfl h1, ?_, ?_⟩
    · exact iff_of_false (by decide) (fun hc => absurd h1 (not_le.mpr hc.1))
    · exact iff_of_false (by decide) (fun hc => absurd h1 (not_le.mpr hc.1))
  · rw [if_neg h1]
    have hlt : s.groundedness_score < h.groundedness_threshold := not_le.mp h1
    by_cases h2 : s.groundedness_loop_count > s.loop_max_iter
    · rw [if_pos h2]
      refine ⟨iff_of_false (by decide) (fun hc => absurd hc h1), ?_, ?_⟩
      · exact iff_of_true rfl ⟨hlt, h2⟩
      · exact iff_of_false (by decide) (fun hc => absurd hc.2 (not_le.mpr h2))
    · rw [if_neg h2]
      refine ⟨iff_of_false (by decide) (fun hc => absurd hc h1), ?_, ?_⟩
      · exact iff_of_false (by decide) (fun hc => absurd hc.2 h2)
      · exact iff_of_true rfl ⟨hlt, Nat.le_of_not_lt h2⟩

/-- Claim C2 — routing law of the precision router with its own ceiling:
`pass` iff the score meets the threshold (default 8.0),
`max_iterations_reached` iff the score is below threshold and the precision
loop count strictly exceeds the handler's own `max_loops` (default 3),
`refine_query` in the remaining case; and the decision never depends on
`state.loop_max_iter`. -/
theorem precision_routing_law :
    defaultPrecisionHandler.precision_threshold = 8 ∧
    defaultPrecisionHandler.max_loops = 3 ∧
    ∀ (h : PrecisionHandler) (s : AgentState),
      (h.get_next_step s = "pass" ↔
        s.precision_score ≥ h.precision_threshold) ∧
      (h.get_next_step s = "max_iterations_reached" ↔
        (s.precision_score < h.precision_threshold ∧
          s.precision_loop_count > h.max_loops)) ∧
      (h.get_next_step s = "refine_query" ↔
        (s.precision_score < h.precision_threshold ∧
          s.precision_loop_count ≤ h.max_loops)) ∧
      (∀ m : ℕ, h.get_next_step { s with loop_max_iter := m } = h.get_next_step s) := by
  refine ⟨rfl, rfl, fun h s => ?_⟩
  refine ⟨?_, ?_, ?_, fun m => rfl⟩ <;> unfold PrecisionHandler.get_next_step
  · by_cases h1 : s.precision_score ≥ h.precision_threshold
    · rw [if_pos h1]; exact iff_of_true rfl h1
    · rw [if_neg h1]
      split
      · exact iff_of_false (by decide) h1
      · exact iff_of_false (by decide) h1
  · by_cases h1 : s.precision_score ≥ h.precision_threshold
    · rw [if_pos h1]
      exact iff_of_false (by decide) (fun hc => absurd h1 (not_le.mpr hc.1))
    · rw [if_neg h1]
      have hlt : s.precision_score < h.precision_threshold := not_le.mp h1
      by_cases h2 : s.precision_loop_count > h.max_loops
      · rw [if_pos h2]; exact iff_of_true rfl ⟨hlt, h2⟩
      · rw [if_neg h2]
        exact iff_of_false (by decide) (fun hc => absurd hc.2 h2)
  · by_cases h1 : s.precision_score ≥ h.precision_threshold
    · rw [if_pos h1]
      exact iff_of_false (by decide) (fun hc => absurd h1 (not_le.mpr hc.1))
    · rw [if_neg h1]
      have hlt : s.precision_score < h.precision_threshold := not_le.mp h1
      by_cases h2 : s.precision_loop_count > h.max_loops
      · rw [if_pos h2]
        exact iff_of_false (by decide) (fun hc => absurd hc.2 (not_le.mpr h2))
      · rw [if_neg h2]
        exact iff_of_true rfl ⟨hlt, Nat.le_of_not_lt h2⟩


/-- Claim C6 — MaxIterationsHandler effect and frame:
`handle_max_iterations` unconditionally overwrites `response` with the
configured fallback message (default the fixed apology string), leaves every
other state field unchanged, is a total function (the exhausted-iterations
outcome is an ordinary returned state, not an error), and the graph wires
the `max_iterations_reached` node straight to END. -/
theorem max_iterations_effect_and_frame :
    defaultMaxIterationsHandler.fallback_message
        = "We need more context to provide an accurate answer." ∧
    ∀ (mh : MaxIterationsHandler) (gh : GroundednessNextStep)
      (ph : PrecisionHandler) (o : Oracles) (s : AgentState),
      (mh.handle_max_iterations s).response = mh.fallback_message ∧
      (mh.handle_max_iterations s).query = s.query ∧
      (mh.handle_max_iterations s).expanded_query = s.expanded_query ∧
      (mh.handle_max_iterations s).context = s.context ∧
      (mh.handle_max_iterations s).precision_score = s.precision_score ∧
      (mh.handle_max_iterations s).groundedness_score = s.groundedness_score ∧
      (mh.handle_max_iterations s).groundedness_loop_count = s.groundedness_loop_count ∧
      (mh.handle_max_iterations s).precision_loop_count = s.precision_loop_count ∧
      (mh.handle_max_iterations s).feedback = s.feedback ∧
      (mh.handle_max_iterations s).query_feedback = s.query_feedback ∧
      (mh.handle_max_iterations s).groundedness_check = s.groundedness_check ∧
      (mh.handle_max_iterations s).loop_max_iter = s.loop_max_iter ∧
      step gh ph mh o ⟨.maxIterationsN, s⟩ = ⟨.endN, mh.handle_max_iterations s⟩ :=
  ⟨rfl, fun _ _ _ _ _ =>
    ⟨rfl, rfl, rfl, rfl, rfl, rfl, rfl, rfl, rfl, rfl, rfl, rfl, rfl⟩⟩

/-- Claim C8 — feedback non-destruction: `ResponseFeedbackProvider.provide_feedback`
only rewrites `feedback`, setting it to the concatenation holding the previous
response verbatim followed by the generated suggestions, and leaves `response`
(and every other field) untouched; symmetrically
`QueryFeedbackProvider.provide_feedback` only rewrites `query_feedback` to the
previous expanded query verbatim plus suggestions, leaving `expanded_query`
untouched. -/
theorem feedback_non_destruction :
    ∀ (o : Oracles) (s : AgentState),
      ResponseFeedbackProvider.provide_feedback o s
        = { s with feedback := "Previous Response: " ++ s.response
              ++ "\nSuggestions: " ++ o.responseSuggestions s.query s.response } ∧
      (ResponseFeedbackProvider.provide_feedback o s).response = s.response ∧
      (∃ pre suf, (ResponseFeedbackProvider.provide_feedback o s).feedback
          = pre ++ s.response ++ suf) ∧
      QueryFeedbackProvider.provide_feedback o s
        = { s with query_feedback := "Previous Expanded Query: " ++ s.expanded_query
              ++ "\nSuggestions: " ++ o.querySuggestions s.query s.expanded_query } ∧
      (QueryFeedbackProvider.provide_feedback o s).expanded_query = s.expanded_query ∧
      (∃ pre suf, (QueryFeedbackProvider.provide_feedback o s).query_feedback
          = pre ++ s.expanded_query ++ suf) := by
  intro o s
  refine ⟨rfl, rfl, ⟨"Previous Response: ",
      "\nSuggestions: " ++ o.responseSuggestions s.query s.response, ?_⟩,
    rfl, rfl, ⟨"Previous Expanded Query: ",
      "\nSuggestions: " ++ o.querySuggestions s.query s.expanded_query, ?_⟩⟩ <;>
    simp [ResponseFeedbackProvider.provide_feedback,
      QueryFeedbackProvider.provide_feedback, String.append_assoc]

/-- Claim C5 — context replacement: `ContextRetriever.retrieve_context` sets
`context` to exactly the content/metadata pairs of the documents the
similarity-search oracle returns for `expanded_query`, in the oracle's
order; the result does not depend on the previous `context` (full
replacement, no accumulation); and whenever the oracle honours its top-k
contract (at most k = 3 documents, the `k` configured in
`ContextRetriever.__init__`), the stored context has length at most 3. -/
theorem context_replacement :
    ∀ (o : Oracles) (s : AgentState),
      (ContextRetriever.retrieve_context o s).context
        = (o.searchDocs s.expanded_query).map (fun d => ⟨d.page_content, d.metadata⟩) ∧
      (∀ c₀, ContextRetriever.retrieve_context o { s with context := c₀ }
          = ContextRetriever.retrieve_context o s) ∧
      ((o.searchDocs s.expanded_query).length ≤ 3 →
        (ContextRetriever.retrieve_context o s).context.length ≤ 3) := by
  intro o s
  refine ⟨rfl, fun c₀ => rfl, fun hk => ?_⟩
  simpa [ContextRetriever.retrieve_context] using hk

/-- Witness for the context-replacement theorem at a concrete oracle and
state: the one-document oracle satisfies the top-3 contract, so the stored
context has length at most 3. -/
theorem context_replacement_witness :
    (ContextRetriever.retrieve_context witnessOracles (initialState "q" 3)).context.length ≤ 3 :=
  (context_replacement witnessOracles (initialState "q" 3)).2.2 (by decide)

/-- Claim C9 — `query_feedback` is dead data in the traced control flow: on
two states that differ only in `query_feedback`, `QueryExpander.expand_query`
(which reads only `state['query']`) produces the same `expanded_query`; and
every orchestrator step taken from such a pair of states follows the same
edge and again yields states that differ at most in `query_feedback`, so the
value written by `QueryFeedbackProvider` never influences any subsequent
node. -/
theorem query_feedback_never_consumed :
    ∀ (o : Oracles) (s₁ s₂ : AgentState),
      eqExceptQueryFeedback s₁ s₂ →
      (QueryExpander.expand_query o s₁).expanded_query
          = (QueryExpander.expand_query o s₂).expanded_query ∧
      ∀ (gh : GroundednessNextStep) (ph : PrecisionHandler)
        (mh : MaxIterationsHandler) (n : Node),
        (step gh ph mh o ⟨n, s₁⟩).node = (step gh ph mh o ⟨n, s₂⟩).node ∧
        eqExceptQueryFeedback (step gh ph mh o ⟨n, s₁⟩).state
          (step gh ph mh o ⟨n, s₂⟩).state := by
  intro o s₁ s₂ hsame
  obtain ⟨hq, hx, hc, hr, hps, hgs, hgc, hpc, hf, hb, hm⟩ := hsame
  constructor
  · simp [QueryExpander.expand_query, hq]
  · intro gh ph mh n
    cases n <;>
      simp_all [step, eqExceptQueryFeedback, QueryExpander.expand_query,
        ContextRetriever.retrieve_context, ResponseGenerator.generate_response,
        GroundednessEvaluator.applyScore, PrecisionEvaluator.applyScore,
        ResponseFeedbackProvider.provide_feedback,
        QueryFeedbackProvider.provide_feedback,
        MaxIterationsHandler.handle_max_iterations,
        GroundednessNextStep.get_next_step, PrecisionHandler.get_next_step]

/-- Witness for the noninterference theorem on a concrete pair of states
that differ only in `query_feedback`. -/
theorem query_feedback_never_consumed_witness :
    (QueryExpander.expand_query witnessOracles (initialState "q" 3)).expanded_query
      = (QueryExpander.expand_query witnessOracles
          { initialState "q" 3 with query_feedback := "stale advice" }).expanded_query :=
  (query_feedback_never_consumed witnessOracles (initialState "q" 3)
    { initialState "q" 3 with query_feedback := "stale advice" }
    ⟨rfl, rfl, rfl, rfl, rfl, rfl, rfl, rfl, rfl, rfl, rfl⟩).1

/-- Counterexample to claim C7 as stated: the reply `"12"` cannot be parsed
as a numeral in range [0, 10], yet `PrecisionEvaluator.evaluate` does not
fail on it — `float` accepts it, and the state is mutated with the
out-of-range score 12. -/
theorem score_parse_error_counterexample :
    parseFloatInRange "12" = none ∧
    PrecisionEvaluator.evaluate "12" (initialState "q" 3)
      = ({ initialState "q" 3 with precision_score := 12, precision_loop_count := 1 },
          none) := by
  constructor <;> decide

/-- Claim C7 amended — for every oracle reply that `float` cannot parse as a
numeral at all, the evaluator fails with a parse error that propagates (it
is never coerced to a default score) and the state is returned unchanged —
in particular `precision_score` and `precision_loop_count` keep their prior
values; a reply that parses, even to a value outside [0, 10], is accepted
without any range check. -/
theorem score_parse_error_surfacing :
    ∀ (reply : String) (s : AgentState),
      (parseFloat reply = none →
        PrecisionEvaluator.evaluate reply s = (s, some .parseError)) ∧
      (∀ v, parseFloat reply = some v →
        PrecisionEvaluator.evaluate reply s
          = ({ s with precision_score := v, precision_loop_count := s.precision_loop_count + 1 }, none)) := by
  intro reply s
  constructor
  · intro hnone
    simp [PrecisionEvaluator.evaluate, hnone]
  · intro v hv
    simp [PrecisionEvaluator.evaluate, hv, PrecisionEvaluator.applyScore]

/-- Witness for the amended parse-error theorem at a concrete unparsable
reply: the evaluator surfaces the error and hands back the untouched state. -/
theorem score_parse_error_surfacing_witness :
    PrecisionEvaluator.evaluate "As an evaluator I score this 7" (initialState "q" 3)
      = (initialState "q" 3, some .parseError) :=
  (score_parse_error_surfacing "As an evaluator I score this 7"
    (initialState "q" 3)).1 (by decide)

/-- Counterexample to claim C10 as stated: the verdict `"unsafe S6"` is a
rejected (unsafe) verdict, yet `NutritionAgent.run` invokes the
orchestrator on it instead of surfacing a rejection. -/
theorem safety_gate_counterexample :
    isRejectedVerdict "unsafe S6" = true ∧
    handleFilteredResult "unsafe S6" = .invokeWorkflow := by
  constructor <;> decide

/-- Claim C10 amended — for every filter verdict that is rejected (unsafe)
and is not one of the two deliberately bypassed categories `"unsafe S6"`
and `"unsafe S7"`, the orchestrator is never invoked: the caller surfaces
the rejection message instead, so the query never reaches EXPAND_QUERY and
no session state is created. -/
theorem safety_gate_blocks_rejected :
    ∀ v : String, isRejectedVerdict v = true → v ≠ "unsafe S6" → v ≠ "unsafe S7" →
      handleFilteredResult v = .surfaceRejection := by
  intro v hrej h6 h7
  have hsafe : v ≠ "safe" := by
    rintro rfl
    exact absurd hrej (by decide)
  simp [handleFilteredResult, forwardedVerdicts, hsafe, h6, h7]

/-- Witness for the amended safety-gate theorem: the verdict `"unsafe S1"`
is rejected and leads to a surfaced rejection, never to the orchestrator. -/
theorem safety_gate_blocks_rejected_witness :
    handleFilteredResult "unsafe S1" = .surfaceRejection :=
  safety_gate_blocks_rejected "unsafe S1" (by decide) (by decide) (by decide)

end NutriCare
